import Mathlib

/-!
Shallow embedding of the Open3D tensor RGBD odometry driver
(`cpp/open3d/t/pipelines/odometry/RGBDOdometry.cpp`) together with the
configuration-vector length check of the example application
(`examples/cpp/DemoTICPOdom.cpp`, `ExampleWindow::ReadConfigFile`).

Modelling conventions:
* tensors/images are records carrying their shape, dtype, device and data;
  depth pixels are `Option ℚ` with `none` standing for NaN;
* 3x3 and 4x4 matrices are functions `Fin 3 → Fin 3 → ℚ` / `Fin 4 → Fin 4 → ℚ`;
* `utility::LogError` (which throws) is modelled by `Except OdomError`;
* the numerical kernels that live outside this repository
  (`t::geometry::kernel::image::PyrDownDepth`'s pixel computation,
  `CreateVertexMap`, `CreateNormalMap`, `RGBToGray`, `PyrDown`, `FilterSobel`,
  and the three `kernel::odometry::ComputePose*` solvers composed with
  `PoseToTransformation`) are abstract function parameters gathered in the
  `Kernels` record; every theorem quantifies over them;
* the pipeline stages that a run performs are recorded in an effect trace,
  so that "the error is raised before any pyramid/kernel work" is a
  statement about the trace.
-/

namespace RGBDOdom

/-- Compute device of a tensor (`core::Device`). -/
inductive Device where
  | cpu : Device
  | cuda : Nat → Device
deriving DecidableEq

/-- Element type of a tensor (`core::Dtype`); only the cases the driver
inspects are distinguished. -/
inductive Dtype where
  | float32 : Dtype
  | float64 : Dtype
  | other : Dtype
deriving DecidableEq

/-- The specific configuration failure raised through `utility::LogError`. -/
inductive ConfigKind where
  | deviceMismatch : ConfigKind
  | invalidShape : ConfigKind
  | invalidDtype : ConfigKind
  | unknownMethod : ConfigKind
  | vectorLengthMismatch : ConfigKind
deriving DecidableEq

/-- Fatal errors of the engine; the spec's taxonomy calls all of the above
`ConfigurationError`. -/
inductive OdomError where
  | configuration : ConfigKind → OdomError
deriving DecidableEq

/-- Pipeline stages recorded by a run, used to express that an error is
raised before a given kind of work happens. -/
inductive Eff where
  | clipSource : Eff
  | clipTarget : Eff
  | buildPyramid : Eff
  | solve : Eff
deriving DecidableEq

/-- 3x3 rational matrix (the intrinsics; the C++ driver keeps it Float64). -/
abbrev Mat3 := Fin 3 → Fin 3 → ℚ

/-- 4x4 rational matrix (rigid transformations). -/
abbrev Mat4 := Fin 4 → Fin 4 → ℚ

/-- Matrix product of 4x4 matrices (`core::Tensor::Matmul` on 4x4 inputs). -/
def mat4Mul (A B : Mat4) : Mat4 := fun i j =>
  A i 0 * B 0 j + A i 1 * B 1 j + A i 2 * B 2 j + A i 3 * B 3 j

/-- Identity 4x4 matrix. -/
def mat4Id : Mat4 := fun i j => if i = j then 1 else 0

/-- `intrinsics /= 2` — elementwise in-place division by two
(RGBDOdometry.cpp line 189). -/
def mat3DivTwo (K : Mat3) : Mat3 := fun i j => K i j / 2

/-- `intrinsics[-1][-1] = 1` — reset the homogeneous scale entry
(RGBDOdometry.cpp line 190); index `-1` is the last one. -/
def mat3SetHomOne (K : Mat3) : Mat3 := fun i j =>
  if i = 2 ∧ j = 2 then 1 else K i j

/-- One per-level intrinsics transition: halve every entry, then pin the
bottom-right entry back to 1 (lines 189–190, identically at 267–268 and
353–354). -/
def intrinsicsStep (K : Mat3) : Mat3 := mat3SetHomOne (mat3DivTwo K)

/-- An image (`t::geometry::Image`): shape, dtype, device and flattened
pixel data; `none` models a NaN pixel. -/
structure Img where
  rows : Int
  cols : Int
  channels : Int
  dtype : Dtype
  device : Device
  data : List (Option ℚ)
deriving DecidableEq

/-- An RGBD frame (`t::geometry::RGBDImage`): color and depth images. -/
structure RGBDImg where
  color : Img
  depth : Img
deriving DecidableEq

/-- The numerical kernels external to this repository, abstracted as
function parameters.  `pyrDownData` is only the pixel computation of
`t::geometry::kernel::image::PyrDownDepth`; the shape/dtype handling around
it is in this file (`pyrDownDepth`).  The three pose fields stand for the
`ComputePose*` wrappers (external solver kernel followed by
`PoseToTransformation`), returning the incremental 4x4 delta. -/
structure Kernels where
  pyrDownData : Img → List (Option ℚ)
  createVertexMap : Img → Mat3 → Img
  createNormalMap : Img → Img
  rgbToGray : Img → Img
  pyrDownColor : Img → Img
  filterSobel : Img → Img × Img
  posePtp : Img → Img → Img → Mat3 → Mat4 → ℚ → Mat4
  poseIntensity : Img → Img → Img → Img → Img → Img → Img → Mat3 → Mat4 → ℚ → Mat4
  poseHybrid : Img → Img → Img → Img → Img → Img → Img → Img → Img → Mat3 → Mat4 → ℚ → Mat4

/-- The anonymous-namespace `PyrDownDepth` wrapper (RGBDOdometry.cpp lines
42–62): validate shape and dtype, then produce a `(rows/2, cols/2, 1)`
image of the same dtype and device whose pixels come from the external
kernel. -/
def pyrDownDepth (ker : Kernels) (src : Img) : Except OdomError Img :=
  if src.rows ≤ 0 ∨ src.cols ≤ 0 ∨ src.channels ≠ 1 then
    .error (.configuration .invalidShape)
  else if src.dtype ≠ Dtype.float32 then
    .error (.configuration .invalidDtype)
  else
    .ok ⟨src.rows / 2, src.cols / 2, 1, src.dtype, src.device, ker.pyrDownData src⟩

/-- Generic image-pyramid loop shared by the three cost methods
(RGBDOdometry.cpp lines 169–192, 238–270, 320–356): iterate `i` from `0` to
`n-1`; at each iteration build the level payload from the current images
and the current intrinsics and store it at index `n-1-i` (here: the level
built last, i.e. the coarsest, ends up at index 0 because each recursive
call prepends its coarser levels); if `i ≠ n-1`, downsample the working
images (which can raise) and apply the intrinsics transition. -/
def buildPyramid {σ α : Type} (mk : σ → Mat3 → α) (step : σ → Except OdomError σ) :
    Nat → σ → Mat3 → Except OdomError (List α)
  | 0, _, _ => .ok []
  | 1, s, K => .ok [mk s K]
  | m + 2, s, K =>
    match step s with
    | .error e => .error e
    | .ok s1 =>
      match buildPyramid mk step (m + 1) s1 (intrinsicsStep K) with
      | .error e => .error e
      | .ok rest => .ok (rest ++ [mk s K])

/-- Iterated fallible downsampling: `iterExcept step m s` applies `step`
`m` times, propagating the first error. -/
def iterExcept {σ : Type} (step : σ → Except OdomError σ) :
    Nat → σ → Except OdomError σ
  | 0, s => .ok s
  | m + 1, s =>
    match step s with
    | .error e => .error e
    | .ok s1 => iterExcept step m s1

/-- Per-level data of the point-to-plane method (RGBDOdometry.cpp lines
160–181): source/target vertex maps, target normal map, and a clone of the
intrinsics taken before that level transition's halving. -/
structure PtpLevel where
  svm : Img
  tvm : Img
  tnm : Img
  K : Mat3

/-- Build one point-to-plane level from the current source/target depth
images (lines 170–181): vertex maps through the current intrinsics, the
normal map from the target vertex map, and the intrinsics clone. -/
def mkPtpLevel (ker : Kernels) (s : Img × Img) (K : Mat3) : PtpLevel :=
  let svm := ker.createVertexMap s.1 K
  let tvm := ker.createVertexMap s.2 K
  ⟨svm, tvm, ker.createNormalMap tvm, K⟩

/-- Level transition of the point-to-plane pyramid (lines 183–188):
downsample both depth images with threshold `depth_diff * 2`. -/
def stepPtp (ker : Kernels) : Img × Img → Except OdomError (Img × Img) :=
  fun s =>
    match pyrDownDepth ker s.1 with
    | .error e => .error e
    | .ok s1 =>
      match pyrDownDepth ker s.2 with
      | .error e => .error e
      | .ok t1 => .ok (s1, t1)

/-- The point-to-plane pyramid (lines 159–192). -/
def buildPtpPyramid (ker : Kernels) (n : Nat) (sd td : Img) (K : Mat3) :
    Except OdomError (List PtpLevel) :=
  buildPyramid (mkPtpLevel ker) (stepPtp ker) n (sd, td) K

/-- Per-level data of the intensity method (RGBDOdometry.cpp lines
217–257): depth and intensity clones for source and target, the target
intensity Sobel gradients, the source vertex map and the intrinsics
clone. -/
structure IntLevel where
  sd : Img
  td : Img
  si : Img
  ti : Img
  tidx : Img
  tidy : Img
  svm : Img
  K : Mat3

/-- Build one intensity level from the current
(sourceDepth, targetDepth, sourceIntensity, targetIntensity) images
(lines 239–257). -/
def mkIntLevel (ker : Kernels) (s : Img × Img × Img × Img) (K : Mat3) : IntLevel :=
  let grad := ker.filterSobel s.2.2.2
  ⟨s.1, s.2.1, s.2.2.1, s.2.2.2, grad.1, grad.2, ker.createVertexMap s.1 K, K⟩

/-- Level transition of the intensity pyramid (lines 259–266): edge-aware
depth downsampling for both depths, smoothing pyramid reduction for both
intensity images. -/
def stepIntensity (ker : Kernels) :
    Img × Img × Img × Img → Except OdomError (Img × Img × Img × Img) :=
  fun s =>
    match pyrDownDepth ker s.1 with
    | .error e => .error e
    | .ok sd1 =>
      match pyrDownDepth ker s.2.1 with
      | .error e => .error e
      | .ok td1 => .ok (sd1, td1, ker.pyrDownColor s.2.2.1, ker.pyrDownColor s.2.2.2)

/-- The intensity pyramid (lines 216–270). -/
def buildIntPyramid (ker : Kernels) (n : Nat) (s0 : Img × Img × Img × Img) (K : Mat3) :
    Except OdomError (List IntLevel) :=
  buildPyramid (mkIntLevel ker) (stepIntensity ker) n s0 K

/-- Per-level data of the hybrid method (RGBDOdometry.cpp lines 296–343):
the intensity-level data plus the target depth Sobel gradients. -/
structure HybLevel where
  sd : Img
  td : Img
  si : Img
  ti : Img
  tddx : Img
  tddy : Img
  tidx : Img
  tidy : Img
  svm : Img
  K : Mat3

/-- Build one hybrid level (lines 321–343). -/
def mkHybLevel (ker : Kernels) (s : Img × Img × Img × Img) (K : Mat3) : HybLevel :=
  let igrad := ker.filterSobel s.2.2.2
  let dgrad := ker.filterSobel s.2.1
  ⟨s.1, s.2.1, s.2.2.1, s.2.2.2, dgrad.1, dgrad.2, igrad.1, igrad.2,
    ker.createVertexMap s.1 K, K⟩

/-- The hybrid pyramid (lines 295–356); its level transition (lines
345–355) is identical to the intensity one. -/
def buildHybPyramid (ker : Kernels) (n : Nat) (s0 : Img × Img × Img × Img) (K : Mat3) :
    Except OdomError (List HybLevel) :=
  buildPyramid (mkHybLevel ker) (stepIntensity ker) n s0 K

/-- Inner Gauss-Newton loop at one level
(`for iter in 0..iterations[i]`, lines 195–201, 274–281, 360–368):
each iteration asks the pose kernel for an incremental transform from the
current estimate and premultiplies it onto the running estimate
(`trans = delta * trans`).  Besides the final estimate, it returns one
trace entry `j` (the index of the level being processed) per kernel
invocation, emitted by the very recursion that performs the call. -/
def runIters {α : Type} (poseFn : α → Mat4 → Mat4) (lv : α) (j : Nat) :
    Nat → Mat4 → Mat4 × List Nat
  | 0, t => (t, [])
  | m + 1, t =>
    let r := runIters poseFn lv j m (mat4Mul (poseFn lv t) t)
    (r.1, j :: r.2)

/-- Outer loop over the pyramid levels (`for i in 0..n_levels`, lines
194–202, 273–282, 359–369), threading the running transform and
concatenating the per-level kernel-call traces; `j` is the index of the
first remaining level. -/
def runLevelsAux {α : Type} (poseFn : α → Mat4 → Mat4) :
    Nat → List α → List Int → Mat4 → Mat4 × List Nat
  | _, [], _, t => (t, [])
  | _, _ :: _, [], t => (t, [])
  | j, lv :: ls, c :: cs, t =>
    let r1 := runIters poseFn lv j c.toNat t
    let r2 := runLevelsAux poseFn (j + 1) ls cs r1.1
    (r2.1, r1.2 ++ r2.2)

/-- The full coarse-to-fine optimization loop: levels are processed from
index 0 (coarsest) to index `n-1` (finest); `iterations[i]` is an `int` in
the C++ source, and a `for` loop with a non-positive bound performs zero
iterations, hence `Int.toNat`. -/
def runLevelsTrace {α : Type} (poseFn : α → Mat4 → Mat4)
    (levels : List α) (its : List Int) (t : Mat4) : Mat4 × List Nat :=
  runLevelsAux poseFn 0 levels its t

/-- The reference schedule of kernel calls: all of level `j`'s budget, then
all of level `j+1`'s, and so on. -/
def schedule (j : Nat) : List Int → List Nat
  | [] => []
  | c :: cs => List.replicate c.toNat j ++ schedule (j + 1) cs

/-- Pose update of the point-to-plane method (lines 196–199): the
`ComputePosePointToPlane` wrapper applied to the level's maps, the level's
intrinsics clone and the current estimate. -/
def poseFnPtp (ker : Kernels) (diff : ℚ) : PtpLevel → Mat4 → Mat4 :=
  fun lv t => ker.posePtp lv.svm lv.tvm lv.tnm lv.K t diff

/-- Pose update of the intensity method (lines 275–279). -/
def poseFnIntensity (ker : Kernels) (diff : ℚ) : IntLevel → Mat4 → Mat4 :=
  fun lv t => ker.poseIntensity lv.sd lv.td lv.si lv.ti lv.tidx lv.tidy lv.svm lv.K t diff

/-- Pose update of the hybrid method (lines 361–366). -/
def poseFnHybrid (ker : Kernels) (diff : ℚ) : HybLevel → Mat4 → Mat4 :=
  fun lv t => ker.poseHybrid lv.sd lv.td lv.si lv.ti lv.tddx lv.tddy lv.tidx lv.tidy
    lv.svm lv.K t diff

/-- `RGBDOdometryMultiScalePointToPlane` (lines 150–205): the number of
levels is `iterations.size()` (line 159); build the pyramid, then run the
fixed iteration schedule.  The effect trace records the pyramid stage and
one `solve` per kernel invocation. -/
def rgbdOdometryMultiScalePointToPlane (ker : Kernels) (source target : RGBDImg)
    (K : Mat3) (T : Mat4) (diff : ℚ) (its : List Int) :
    Except OdomError Mat4 × List Eff :=
  match buildPtpPyramid ker its.length source.depth target.depth K with
  | .error e => (.error e, [Eff.buildPyramid])
  | .ok levels =>
    let r := runLevelsTrace (poseFnPtp ker diff) levels its T
    (.ok r.1, Eff.buildPyramid :: r.2.map fun _ => Eff.solve)

/-- `RGBDOdometryMultiScaleIntensity` (lines 207–285): grayscale
conversion of both color images (lines 232–235), pyramid, then the fixed
schedule. -/
def rgbdOdometryMultiScaleIntensity (ker : Kernels) (source target : RGBDImg)
    (K : Mat3) (T : Mat4) (diff : ℚ) (its : List Int) :
    Except OdomError Mat4 × List Eff :=
  let si0 := ker.rgbToGray source.color
  let ti0 := ker.rgbToGray target.color
  match buildIntPyramid ker its.length (source.depth, target.depth, si0, ti0) K with
  | .error e => (.error e, [Eff.buildPyramid])
  | .ok levels =>
    let r := runLevelsTrace (poseFnIntensity ker diff) levels its T
    (.ok r.1, Eff.buildPyramid :: r.2.map fun _ => Eff.solve)

/-- `RGBDOdometryMultiScaleHybrid` (lines 287–371). -/
def rgbdOdometryMultiScaleHybrid (ker : Kernels) (source target : RGBDImg)
    (K : Mat3) (T : Mat4) (diff : ℚ) (its : List Int) :
    Except OdomError Mat4 × List Eff :=
  let si0 := ker.rgbToGray source.color
  let ti0 := ker.rgbToGray target.color
  match buildHybPyramid ker its.length (source.depth, target.depth, si0, ti0) K with
  | .error e => (.error e, [Eff.buildPyramid])
  | .ok levels =>
    let r := runLevelsTrace (poseFnHybrid ker diff) levels its T
    (.ok r.1, Eff.buildPyramid :: r.2.map fun _ => Eff.solve)

/-- Modelled from the spec: `t::geometry::Image::ClipTransform(depth_scale,
0, depth_max, NAN)` is not part of this repository's sources (only its call
sites at RGBDOdometry.cpp lines 121–124 are).  Per spec section 4.1, a
pixel whose value divided by the scale falls outside `[0, depth_max]`
becomes NaN, every other pixel is scale-normalized to metric units; a NaN
input pixel stays NaN. -/
def clipVal (scale dmax : ℚ) : Option ℚ → Option ℚ
  | none => none
  | some v =>
    if 0 ≤ v / scale ∧ v / scale ≤ dmax then some (v / scale) else none

/-- Modelled from the spec: pixelwise `ClipTransform` over a depth image,
producing a new image and leaving the input untouched. -/
def clipImage (scale dmax : ℚ) (img : Img) : Img :=
  { img with data := img.data.map (clipVal scale dmax) }

/-- Method codes of the dispatch chain at lines 131–145; the C++
`Method` is an enumeration whose underlying integer can lie outside the
three named values, which the final `else` branch rejects. -/
def methodPointToPlane : Int := 0

/-- Method code of `Method::Intensity`. -/
def methodIntensity : Int := 1

/-- Method code of `Method::Hybrid`. -/
def methodHybrid : Int := 2

/-- `RGBDOdometryMultiScale` (RGBDOdometry.cpp lines 94–148): device
consistency check first (lines 104–109), then host-double working copies
of the intrinsics and the initial transform (lines 111–116, value-level
here; aliasing is modelled separately by `heapOdometry`), then depth
preprocessing of both frames (lines 118–129), then dispatch on the method
(lines 131–145) with an unknown method rejected.  The second component
records which pipeline stages were performed. -/
def rgbdOdometryMultiScale (ker : Kernels) (source target : RGBDImg)
    (K : Mat3) (T : Mat4) (scale dmax diff : ℚ) (its : List Int) (method : Int) :
    Except OdomError Mat4 × List Eff :=
  if source.depth.device ≠ target.depth.device then
    (.error (.configuration .deviceMismatch), [])
  else
    let sourceP : RGBDImg := ⟨source.color, clipImage scale dmax source.depth⟩
    let targetP : RGBDImg := ⟨target.color, clipImage scale dmax target.depth⟩
    if method = methodPointToPlane then
      let r := rgbdOdometryMultiScalePointToPlane ker sourceP targetP K T diff its
      (r.1, Eff.clipSource :: Eff.clipTarget :: r.2)
    else if method = methodIntensity then
      let r := rgbdOdometryMultiScaleIntensity ker sourceP targetP K T diff its
      (r.1, Eff.clipSource :: Eff.clipTarget :: r.2)
    else if method = methodHybrid then
      let r := rgbdOdometryMultiScaleHybrid ker sourceP targetP K T diff its
      (r.1, Eff.clipSource :: Eff.clipTarget :: r.2)
    else
      (.error (.configuration .unknownMethod), [Eff.clipSource, Eff.clipTarget])

/-- The configuration-vector length validation of the example application
(`DemoTICPOdom.cpp` lines 303–312, `ExampleWindow::ReadConfigFile`): after
parsing, the five per-scale vectors must have one length, otherwise a
fatal error is raised before any registration work. -/
def readConfigLengthCheck (voxelSizes searchRadii : List ℚ)
    (maxIterations : List Int) (relativeFitness relativeRmse : List ℚ) :
    Except OdomError Unit :=
  if searchRadii.length ≠ voxelSizes.length ∨
      maxIterations.length ≠ voxelSizes.length ∨
      relativeFitness.length ≠ voxelSizes.length ∨
      relativeRmse.length ≠ voxelSizes.length then
    .error (.configuration .vectorLengthMismatch)
  else
    .ok ()

/-- A tensor value in the aliasing model: device, dtype and matrix data as
rows of rationals. -/
structure TensorVal where
  device : Device
  dtype : Dtype
  data : List (List ℚ)
deriving DecidableEq

/-- The tensor heap: handles are indices into this list; allocation
appends. -/
abbrev Store := List TensorVal

/-- Default value returned when reading an invalid handle. -/
def tensorDefault : TensorVal := ⟨Device.cpu, Dtype.float64, []⟩

/-- Read the tensor behind a handle. -/
def readT (s : Store) (i : Nat) : TensorVal := (s[i]?).getD tensorDefault

/-- Overwrite the tensor behind a handle (in-place mutation through a
`core::Tensor&`). -/
def writeT (s : Store) (i : Nat) (v : TensorVal) : Store := s.set i v

/-- Allocate a fresh tensor (`Clone`, or constructing a new tensor),
returning the new store and the fresh handle. -/
def alloc (s : Store) (v : TensorVal) : Store × Nat := (s ++ [v], s.length)

/-- `t.To(host, core::Dtype::Float64)` (lines 113–116): same values, CPU
device, double precision. -/
def toHostF64 (v : TensorVal) : TensorVal := ⟨Device.cpu, Dtype.float64, v.data⟩

/-- One row of `intrinsics /= 2` on raw data. -/
def rowDivTwo (r : List ℚ) : List ℚ := r.map (· / 2)

/-- `row[-1] = 1` on raw data. -/
def rowSetLastOne (r : List ℚ) : List ℚ := r.set (r.length - 1) 1

/-- `intrinsics /= 2; intrinsics[-1][-1] = 1` on raw data (lines 189–190):
halve every entry, then set the last entry of the last row to 1. -/
def dataHalve (d : List (List ℚ)) : List (List ℚ) :=
  let h := d.map rowDivTwo
  h.set (h.length - 1) (rowSetLastOne ((h.getD (h.length - 1) [])))

/-- Dot product of two rational rows. -/
def dotQ (r c : List ℚ) : ℚ := (List.zipWith (· * ·) r c).sum

/-- Column `j` of raw matrix data. -/
def colQ (b : List (List ℚ)) (j : Nat) : List ℚ := b.map fun r => r.getD j 0

/-- 4x4 `Matmul` on raw data. -/
def dataMatmul (a b : List (List ℚ)) : List (List ℚ) :=
  a.map fun r => (List.range 4).map fun j => dotQ r (colQ b j)

/-- The `n-1` in-place intrinsics transitions performed by a `n`-level
pyramid loop (the branch `if i != n_levels-1` of lines 183–191), mutating
the working copy behind handle `kId`; the fuel here is the number of
transitions. -/
def heapHalvings (kId : Nat) : Nat → Store → Store
  | 0, s => s
  | m + 1, s =>
    let v := readT s kId
    heapHalvings kId m (writeT s kId { v with data := dataHalve v.data })

/-- The inner Gauss-Newton loop mutating the running-transform handle
`tId` (`trans = delta_source_to_target.Matmul(trans)`, line 200): `delta`
is the external solver composite producing the incremental transform data
from the current estimate's data; a 4x4 transform stays Float64 on the
host (line 111). -/
def heapIterLoop (delta : List (List ℚ) → List (List ℚ)) (tId : Nat) :
    Nat → Store → Store
  | 0, s => s
  | m + 1, s =>
    let tr := readT s tId
    heapIterLoop delta tId m
      (writeT s tId ⟨Device.cpu, Dtype.float64, dataMatmul (delta tr.data) tr.data⟩)

/-- The outer level loop of the mutation model. -/
def heapLevels (delta : List (List ℚ) → List (List ℚ)) (tId : Nat) :
    List Int → Store → Store
  | [], s => s
  | c :: cs, s => heapLevels delta tId cs (heapIterLoop delta tId c.toNat s)

/-- Aliasing model of `RGBDOdometryMultiScale` (lines 111–148 together
with a per-method body): the caller's intrinsics and initial transform are
read through their handles, converted to host doubles and cloned into
fresh handles (lines 113–116); the pyramid loop then mutates only the
intrinsics clone and the optimization loop only the transform clone, and
the handle of the transform clone is returned. -/
def heapOdometry (delta : List (List ℚ) → List (List ℚ)) (s0 : Store)
    (iIntr iTrans : Nat) (its : List Int) : Store × Nat :=
  let a1 := alloc s0 (toHostF64 (readT s0 iIntr))
  let a2 := alloc a1.1 (toHostF64 (readT s0 iTrans))
  let s3 := heapHalvings a1.2 (its.length - 1) a2.1
  let s4 := heapLevels delta a2.2 its s3
  (s4, a2.2)

theorem buildPyramid_length {σ α : Type} (mk : σ → Mat3 → α)
    (step : σ → Except OdomError σ) (n : Nat) (s : σ) (K : Mat3) (l : List α)
    (h : buildPyramid mk step n s K = .ok l) : l.length = n := by
  induction n using Nat.strong_induction_on generalizing s K l with
  | _ n ih =>
    match n with
    | 0 =>
      simp only [buildPyramid] at h
      cases h
      rfl
    | 1 =>
      simp only [buildPyramid] at h
      cases h
      rfl
    | m + 2 =>
      simp only [buildPyramid] at h
      split at h
      · cases h
      next s1 hstep =>
        split at h
        · cases h
        next rest hrec =>
          cases h
          have hlen := ih (m + 1) (by omega) s1 (intrinsicsStep K) rest hrec
          simp [hlen]

theorem buildPyramid_get {σ α : Type} (mk : σ → Mat3 → α)
    (step : σ → Except OdomError σ) (n : Nat) (s : σ) (K : Mat3) (l : List α)
    (h : buildPyramid mk step n s K = .ok l) (k : Nat) (hk : k < n) :
    ∃ s1, iterExcept step (n - 1 - k) s = .ok s1 ∧
      l[k]? = some (mk s1 (intrinsicsStep^[n - 1 - k] K)) := by
  induction n using Nat.strong_induction_on generalizing s K l k with
  | _ n ih =>
    match n with
    | 0 => omega
    | 1 =>
      simp only [buildPyramid] at h
      cases h
      have hk0 : k = 0 := by omega
      subst hk0
      exact ⟨s, rfl, by simp [iterExcept]⟩
    | m + 2 =>
      simp only [buildPyramid] at h
      split at h
      · cases h
      next s1 hstep =>
        split at h
        · cases h
        next rest hrec =>
          cases h
          have hlen := buildPyramid_length mk step (m + 1) s1 (intrinsicsStep K) rest hrec
          rcases Nat.lt_or_ge k (m + 1) with hk1 | hk1
          · obtain ⟨s2, hiter, hget⟩ :=
              ih (m + 1) (by omega) s1 (intrinsicsStep K) rest hrec k hk1
            refine ⟨s2, ?_, ?_⟩
            · have e1 : m + 2 - 1 - k = (m - k) + 1 := by omega
              have e2 : m + 1 - 1 - k = m - k := by omega
              rw [e1]
              simp only [iterExcept]
              rw [hstep]
              rw [e2] at hiter
              exact hiter
            · have e1 : m + 2 - 1 - k = (m - k) + 1 := by omega
              have e2 : m + 1 - 1 - k = m - k := by omega
              rw [List.getElem?_append_left (by omega : k < rest.length)]
              rw [e2] at hget
              rw [e1, Function.iterate_succ_apply]
              exact hget
          · have hk2 : k = m + 1 := by omega
            subst hk2
            refine ⟨s, ?_, ?_⟩
            · have e1 : m + 2 - 1 - (m + 1) = 0 := by omega
              rw [e1]
              rfl
            · have e1 : m + 2 - 1 - (m + 1) = 0 := by omega
              rw [List.getElem?_append_right (by omega : rest.length ≤ m + 1)]
              simp [e1, hlen]

theorem runIters_trace {α : Type} (poseFn : α → Mat4 → Mat4) (lv : α) (j : Nat) :
    ∀ (m : Nat) (t : Mat4), (runIters poseFn lv j m t).2 = List.replicate m j := by
  intro m
  induction m with
  | zero => intro t; rfl
  | succ m ihm =>
    intro t
    simp only [runIters, ihm, List.replicate]

theorem runLevelsAux_trace {α : Type} (poseFn : α → Mat4 → Mat4) :
    ∀ (its : List Int) (ls : List α) (j : Nat) (t : Mat4),
      ls.length = its.length →
      (runLevelsAux poseFn j ls its t).2 = schedule j its := by
  intro its
  induction its with
  | nil =>
    intro ls j t hlen
    cases ls with
    | nil => rfl
    | cons lv ls => simp at hlen
  | cons c cs ihc =>
    intro ls j t hlen
    cases ls with
    | nil => simp at hlen
    | cons lv ls =>
      simp only [runLevelsAux, schedule]
      rw [runIters_trace, ihc ls (j + 1) _ (by simpa using hlen)]

theorem schedule_count_lt : ∀ (cs : List Int) (j i : Nat), i < j →
    (schedule j cs).count i = 0 := by
  intro cs
  induction cs with
  | nil => intro j i h; rfl
  | cons c cs ihc =>
    intro j i h
    simp only [schedule, List.count_append, List.count_replicate]
    rw [ihc (j + 1) i (by omega)]
    have hne : ¬(j == i) = true := by simp; omega
    simp [hne]

theorem schedule_count : ∀ (cs : List Int) (d j : Nat), d < cs.length →
    (schedule j cs).count (j + d) = (cs.getD d 0).toNat := by
  intro cs
  induction cs with
  | nil => intro d j h; simp at h
  | cons c cs ihc =>
    intro d j h
    cases d with
    | zero =>
      simp only [schedule, List.count_append, Nat.add_zero, List.getD]
      rw [List.count_replicate_self, schedule_count_lt cs (j + 1) j (by omega)]
      simp
    | succ d =>
      simp only [schedule, List.count_append, List.count_replicate]
      have hne : ¬(j == j + (d + 1)) = true := by simp
      rw [if_neg hne]
      have harith : j + (d + 1) = (j + 1) + d := by omega
      rw [harith, ihc d (j + 1) (by simpa using h)]
      simp [List.getD]

theorem schedule_length : ∀ (cs : List Int) (j : Nat),
    (schedule j cs).length = (cs.map Int.toNat).sum := by
  intro cs
  induction cs with
  | nil => intro j; rfl
  | cons c cs ihc =>
    intro j
    simp [schedule, ihc (j + 1)]

theorem intrinsicsStep_apply (K : Mat3) (i j : Fin 3) :
    intrinsicsStep K i j = if i = 2 ∧ j = 2 then 1 else K i j / 2 := by
  by_cases hij : i = 2 ∧ j = 2 <;>
    simp [intrinsicsStep, mat3SetHomOne, mat3DivTwo, hij]

theorem intrinsicsStep_iterate (m : Nat) (K : Mat3) (hK : K 2 2 = 1) (i j : Fin 3) :
    (intrinsicsStep^[m]) K i j = if i = 2 ∧ j = 2 then 1 else K i j / 2 ^ m := by
  induction m generalizing K with
  | zero =>
    by_cases hij : i = 2 ∧ j = 2
    · obtain ⟨hi, hj⟩ := hij
      subst hi; subst hj
      simpa using hK
    · simp [hij]
  | succ m ihm =>
    rw [Function.iterate_succ_apply]
    have hK1 : intrinsicsStep K 2 2 = 1 := by simp [intrinsicsStep_apply]
    rw [ihm (intrinsicsStep K) hK1]
    by_cases hij : i = 2 ∧ j = 2
    · simp [hij]
    · rw [if_neg hij, if_neg hij, intrinsicsStep_apply, if_neg hij]
      rw [div_div, pow_succ, mul_comm]

theorem pyrDownDepth_error (ker : Kernels) (img : Img) (e : OdomError)
    (h : pyrDownDepth ker img = .error e) :
    e = .configuration .invalidShape ∨ e = .configuration .invalidDtype := by
  unfold pyrDownDepth at h
  split at h
  · cases h; exact Or.inl rfl
  · split at h
    · cases h; exact Or.inr rfl
    · cases h

theorem stepPtp_error (ker : Kernels) (s : Img × Img) (e : OdomError)
    (h : stepPtp ker s = .error e) :
    e = .configuration .invalidShape ∨ e = .configuration .invalidDtype := by
  unfold stepPtp at h
  split at h
  next e1 h1 => cases h; exact pyrDownDepth_error ker s.1 e h1
  next s1 h1 =>
    split at h
    next e2 h2 => cases h; exact pyrDownDepth_error ker s.2 e h2
    next t1 h2 => cases h

theorem stepIntensity_error (ker : Kernels) (s : Img × Img × Img × Img) (e : OdomError)
    (h : stepIntensity ker s = .error e) :
    e = .configuration .invalidShape ∨ e = .configuration .invalidDtype := by
  unfold stepIntensity at h
  split at h
  next e1 h1 => cases h; exact pyrDownDepth_error ker s.1 e h1
  next s1 h1 =>
    split at h
    next e2 h2 => cases h; exact pyrDownDepth_error ker s.2.1 e h2
    next t1 h2 => cases h

theorem buildPyramid_error {σ α : Type} (mk : σ → Mat3 → α)
    (step : σ → Except OdomError σ) (P : OdomError → Prop)
    (hstep : ∀ s e, step s = .error e → P e) (n : Nat) (s : σ) (K : Mat3)
    (e : OdomError) (h : buildPyramid mk step n s K = .error e) : P e := by
  induction n using Nat.strong_induction_on generalizing s K with
  | _ n ih =>
    match n with
    | 0 => simp only [buildPyramid] at h; cases h
    | 1 => simp only [buildPyramid] at h; cases h
    | m + 2 =>
      simp only [buildPyramid] at h
      split at h
      next e1 h1 => cases h; exact hstep s e h1
      next s1 h1 =>
        split at h
        next e2 h2 => cases h; exact ih (m + 1) (by omega) s1 (intrinsicsStep K) h2
        next rest h2 => cases h

theorem ptp_error_kinds (ker : Kernels) (source target : RGBDImg) (K : Mat3)
    (T : Mat4) (diff : ℚ) (its : List Int) (e : OdomError)
    (h : (rgbdOdometryMultiScalePointToPlane ker source target K T diff its).1 = .error e) :
    e = .configuration .invalidShape ∨ e = .configuration .invalidDtype := by
  unfold rgbdOdometryMultiScalePointToPlane at h
  split at h
  next e1 h1 =>
    cases h
    exact buildPyramid_error _ _ _ (stepPtp_error ker) _ _ _ _ h1
  next levels h1 => cases h

theorem intensity_error_kinds (ker : Kernels) (source target : RGBDImg) (K : Mat3)
    (T : Mat4) (diff : ℚ) (its : List Int) (e : OdomError)
    (h : (rgbdOdometryMultiScaleIntensity ker source target K T diff its).1 = .error e) :
    e = .configuration .invalidShape ∨ e = .configuration .invalidDtype := by
  unfold rgbdOdometryMultiScaleIntensity at h
  dsimp only at h
  split at h
  next e1 h1 =>
    cases h
    exact buildPyramid_error _ _ _ (stepIntensity_error ker) _ _ _ _ h1
  next levels h1 => cases h

theorem hybrid_error_kinds (ker : Kernels) (source target : RGBDImg) (K : Mat3)
    (T : Mat4) (diff : ℚ) (its : List Int) (e : OdomError)
    (h : (rgbdOdometryMultiScaleHybrid ker source target K T diff its).1 = .error e) :
    e = .configuration .invalidShape ∨ e = .configuration .invalidDtype := by
  unfold rgbdOdometryMultiScaleHybrid at h
  dsimp only at h
  split at h
  next e1 h1 =>
    cases h
    exact buildPyramid_error _ _ _ (stepIntensity_error ker) _ _ _ _ h1
  next levels h1 => cases h

theorem readT_append_lt (s : Store) (v : TensorVal) (j : Nat) (h : j < s.length) :
    readT (s ++ [v]) j = readT s j := by
  unfold readT
  rw [List.getElem?_append_left h]

theorem readT_append_self (s : Store) (v : TensorVal) :
    readT (s ++ [v]) s.length = v := by
  unfold readT
  rw [List.getElem?_append_right (Nat.le_refl _)]
  simp

theorem readT_write_ne (s : Store) (i j : Nat) (v : TensorVal) (h : i ≠ j) :
    readT (writeT s i v) j = readT s j := by
  unfold readT writeT
  rw [List.getElem?_set_ne h]

theorem readT_write_self (s : Store) (i : Nat) (v : TensorVal) (h : i < s.length) :
    readT (writeT s i v) i = v := by
  unfold readT writeT
  rw [List.getElem?_set_self h]
  rfl

theorem writeT_length (s : Store) (i : Nat) (v : TensorVal) :
    (writeT s i v).length = s.length := List.length_set s i v

theorem heapHalvings_readT_ne (kId : Nat) : ∀ (m : Nat) (s : Store) (j : Nat),
    j ≠ kId → readT (heapHalvings kId m s) j = readT s j := by
  intro m
  induction m with
  | zero => intro s j h; rfl
  | succ m ihm =>
    intro s j h
    unfold heapHalvings
    rw [ihm _ j h, readT_write_ne _ _ _ _ (fun hc => h hc.symm)]

theorem heapHalvings_length (kId : Nat) : ∀ (m : Nat) (s : Store),
    (heapHalvings kId m s).length = s.length := by
  intro m
  induction m with
  | zero => intro s; rfl
  | succ m ihm =>
    intro s
    unfold heapHalvings
    rw [ihm, writeT_length]

theorem heapIterLoop_readT_ne (delta : List (List ℚ) → List (List ℚ)) (tId : Nat) :
    ∀ (m : Nat) (s : Store) (j : Nat), j ≠ tId →
      readT (heapIterLoop delta tId m s) j = readT s j := by
  intro m
  induction m with
  | zero => intro s j h; rfl
  | succ m ihm =>
    intro s j h
    unfold heapIterLoop
    rw [ihm _ j h, readT_write_ne _ _ _ _ (fun hc => h hc.symm)]

theorem heapIterLoop_length (delta : List (List ℚ) → List (List ℚ)) (tId : Nat) :
    ∀ (m : Nat) (s : Store), (heapIterLoop delta tId m s).length = s.length := by
  intro m
  induction m with
  | zero => intro s; rfl
  | succ m ihm =>
    intro s
    unfold heapIterLoop
    rw [ihm, writeT_length]

theorem heapIterLoop_hostF64 (delta : List (List ℚ) → List (List ℚ)) (tId : Nat) :
    ∀ (m : Nat) (s : Store), tId < s.length →
      (readT s tId).device = Device.cpu → (readT s tId).dtype = Dtype.float64 →
      (readT (heapIterLoop delta tId m s) tId).device = Device.cpu ∧
        (readT (heapIterLoop delta tId m s) tId).dtype = Dtype.float64 := by
  intro m
  induction m with
  | zero => intro s hlt hdev hdt; exact ⟨hdev, hdt⟩
  | succ m ihm =>
    intro s hlt hdev hdt
    unfold heapIterLoop
    have hlt2 : tId < (writeT s tId
        ⟨Device.cpu, Dtype.float64, dataMatmul (delta (readT s tId).data) (readT s tId).data⟩).length := by
      rw [writeT_length]; exact hlt
    have hw := readT_write_self s tId
      ⟨Device.cpu, Dtype.float64, dataMatmul (delta (readT s tId).data) (readT s tId).data⟩ hlt
    exact ihm _ hlt2 (by rw [hw]) (by rw [hw])

theorem heapLevels_readT_ne (delta : List (List ℚ) → List (List ℚ)) (tId : Nat) :
    ∀ (its : List Int) (s : Store) (j : Nat), j ≠ tId →
      readT (heapLevels delta tId its s) j = readT s j := by
  intro its
  induction its with
  | nil => intro s j h; rfl
  | cons c cs ihc =>
    intro s j h
    unfold heapLevels
    rw [ihc _ j h, heapIterLoop_readT_ne _ _ _ _ j h]

theorem heapLevels_length (delta : List (List ℚ) → List (List ℚ)) (tId : Nat) :
    ∀ (its : List Int) (s : Store), (heapLevels delta tId its s).length = s.length := by
  intro its
  induction its with
  | nil => intro s; rfl
  | cons c cs ihc =>
    intro s
    unfold heapLevels
    rw [ihc, heapIterLoop_length]

theorem heapLevels_hostF64 (delta : List (List ℚ) → List (List ℚ)) (tId : Nat) :
    ∀ (its : List Int) (s : Store), tId < s.length →
      (readT s tId).device = Device.cpu → (readT s tId).dtype = Dtype.float64 →
      (readT (heapLevels delta tId its s) tId).device = Device.cpu ∧
        (readT (heapLevels delta tId its s) tId).dtype = Dtype.float64 := by
  intro its
  induction its with
  | nil => intro s hlt hdev hdt; exact ⟨hdev, hdt⟩
  | cons c cs ihc =>
    intro s hlt hdev hdt
    unfold heapLevels
    have h1 := heapIterLoop_hostF64 delta tId c.toNat s hlt hdev hdt
    exact ihc _ (by rw [heapIterLoop_length]; exact hlt) h1.1 h1.2

/-- A trivial instantiation of the external kernels, used only to evaluate
the model on concrete inputs. -/
def trivKernels : Kernels where
  pyrDownData := fun _ => []
  createVertexMap := fun img _ => img
  createNormalMap := fun img => img
  rgbToGray := fun img => img
  pyrDownColor := fun img => img
  filterSobel := fun img => (img, img)
  posePtp := fun _ _ _ _ _ _ => mat4Id
  poseIntensity := fun _ _ _ _ _ _ _ _ _ _ => mat4Id
  poseHybrid := fun _ _ _ _ _ _ _ _ _ _ _ _ => mat4Id

/-- 8x8 single-channel Float32 CPU depth image. -/
def img8 : Img := ⟨8, 8, 1, Dtype.float32, Device.cpu, []⟩

/-- 4x4 single-channel Float32 CPU depth image. -/
def img4 : Img := ⟨4, 4, 1, Dtype.float32, Device.cpu, []⟩

/-- 2x2 single-channel Float32 CPU depth image. -/
def img2 : Img := ⟨2, 2, 1, Dtype.float32, Device.cpu, []⟩

/-- 1x1 single-channel Float32 CPU depth image. -/
def img1 : Img := ⟨1, 1, 1, Dtype.float32, Device.cpu, []⟩

/-- 0x0 image, as produced by downsampling a 1x1 image. -/
def img0 : Img := ⟨0, 0, 1, Dtype.float32, Device.cpu, []⟩

/-- A frame on a CUDA device. -/
def imgCuda : Img := ⟨4, 4, 1, Dtype.float32, Device.cuda 0, []⟩

/-- CPU-resident RGBD frame. -/
def frame4 : RGBDImg := ⟨img4, img4⟩

/-- CUDA-resident RGBD frame. -/
def frameCuda : RGBDImg := ⟨imgCuda, imgCuda⟩

/-- A standard pinhole intrinsics matrix (fx 600, fy 500, cx 320, cy 240). -/
def K0 : Mat3 := fun i j =>
  ([[600, 0, 320], [0, 500, 240], [0, 0, 1]].getD i.val []).getD j.val 0

/-- Rotation by 90 degrees about the z axis, as a homogeneous 4x4 matrix. -/
def rotZ4 : Mat4 := fun i j =>
  ([[0, -1, 0, 0], [1, 0, 0, 0], [0, 0, 1, 0], [0, 0, 0, 1]].getD i.val []).getD j.val 0

/-- Rotation by 90 degrees about the x axis, as a homogeneous 4x4 matrix. -/
def rotX4 : Mat4 := fun i j =>
  ([[1, 0, 0, 0], [0, 0, -1, 0], [0, 1, 0, 0], [0, 0, 0, 1]].getD i.val []).getD j.val 0

/-- C1: in every cost method's Gauss-Newton loop (all three instantiate
`runIters` through `runLevelsTrace`), each iteration premultiplies the
computed incremental transform onto the running estimate
(`trans = delta * trans`, RGBDOdometry.cpp lines 196–200, 275–280,
361–367); hence two successive iterations from initial `T`, producing
delta `A` from `T` and then delta `B` from `A*T`, yield `B * (A * T)` —
and the swapped composition `A * (B * T)` is a different matrix already
for two distinguishable 90-degree rotations applied to the identity. -/
theorem c1_composition_order :
    (∀ (α : Type) (poseFn : α → Mat4 → Mat4) (lv : α) (j : Nat) (T : Mat4),
      (runIters poseFn lv j 2 T).1 =
        mat4Mul (poseFn lv (mat4Mul (poseFn lv T) T)) (mat4Mul (poseFn lv T) T))
    ∧ mat4Mul rotX4 (mat4Mul rotZ4 mat4Id) ≠ mat4Mul rotZ4 (mat4Mul rotX4 mat4Id) :=
  ⟨fun _ _ _ _ _ => rfl, by
    intro h
    have h01 := congrFun (congrFun h 0) 1
    simp [mat4Mul, rotX4, rotZ4, mat4Id, show ((3 : Fin 4)).val = 3 from rfl] at h01⟩

/-- C2: when the source and target depth images live on different devices,
`RGBDOdometryMultiScale` raises the device-mismatch `ConfigurationError`
(lines 104–109) and the effect trace is empty: no depth preprocessing, no
pyramid construction and no kernel work happened, so there are no partial
results. -/
theorem c2_device_mismatch_fail_fast (ker : Kernels) (source target : RGBDImg)
    (K : Mat3) (T : Mat4) (scale dmax diff : ℚ) (its : List Int) (method : Int)
    (h : source.depth.device ≠ target.depth.device) :
    rgbdOdometryMultiScale ker source target K T scale dmax diff its method =
      (.error (.configuration .deviceMismatch), []) := by
  unfold rgbdOdometryMultiScale
  rw [if_pos h]

/-- Witness for C2 at a concrete CPU/CUDA frame pair. -/
theorem c2_witness :
    frame4.depth.device ≠ frameCuda.depth.device ∧
      rgbdOdometryMultiScale trivKernels frame4 frameCuda K0 mat4Id 1000 3 (7 / 100)
          [10, 5] methodPointToPlane =
        (.error (.configuration .deviceMismatch), []) :=
  ⟨by decide,
   c2_device_mismatch_fail_fast trivKernels frame4 frameCuda K0 mat4Id 1000 3 (7 / 100)
     [10, 5] methodPointToPlane (by decide)⟩

/-- C3: in the point-to-plane pyramid (built finest-first, each level
stored at position `n-1-i`), index `k` of the stored array holds the level
obtained by downsampling the input images `n-1-k` times — so index 0 is
the coarsest level and index `n-1` the finest — and the optimization loop
performs its kernel calls level-index 0 first, then 1, …, then `n-1`
(`schedule 0 its` is by definition level 0's budget, then level 1's, and
so on). -/
theorem c3_pyramid_ordering :
    (∀ (ker : Kernels) (n : Nat) (sd td : Img) (K : Mat3) (l : List PtpLevel),
      buildPtpPyramid ker n sd td K = .ok l →
      l.length = n ∧
        ∀ k, k < n → ∃ p, iterExcept (stepPtp ker) (n - 1 - k) (sd, td) = .ok p ∧
          l[k]? = some (mkPtpLevel ker p (intrinsicsStep^[n - 1 - k] K)))
    ∧ (∀ (α : Type) (poseFn : α → Mat4 → Mat4) (levels : List α) (its : List Int)
        (T : Mat4), levels.length = its.length →
        (runLevelsTrace poseFn levels its T).2 = schedule 0 its) := by
  constructor
  · intro ker n sd td K l h
    exact ⟨buildPyramid_length _ _ _ _ _ _ h,
      fun k hk => buildPyramid_get _ _ _ _ _ _ h k hk⟩
  · intro α poseFn levels its T hlen
    exact runLevelsAux_trace poseFn its levels 0 T hlen

/-- The two-level point-to-plane pyramid over a 4x4 frame with the trivial
kernels: the coarser (2x2) level sits at index 0. -/
def c3Levels : List PtpLevel :=
  [mkPtpLevel trivKernels (img2, img2) (intrinsicsStep K0),
   mkPtpLevel trivKernels (img4, img4) K0]

/-- Witness for C3: a concrete 2-level build, with the coarsest level at
index 0 and the finest at index 1. -/
theorem c3_witness :
    buildPtpPyramid trivKernels 2 img4 img4 K0 = .ok c3Levels ∧
      (c3Levels.length = 2 ∧
        ∀ k, k < 2 → ∃ p, iterExcept (stepPtp trivKernels) (2 - 1 - k) (img4, img4) = .ok p ∧
          c3Levels[k]? = some (mkPtpLevel trivKernels p (intrinsicsStep^[2 - 1 - k] K0))) :=
  have h : buildPtpPyramid trivKernels 2 img4 img4 K0 = .ok c3Levels := by rfl
  ⟨h, c3_pyramid_ordering.1 trivKernels 2 img4 img4 K0 c3Levels h⟩

/-- C4: the per-level pose kernel is invoked exactly `iterations[i]` times
at level `i` — the call trace is independent of the pose function (hence
of any residual statistics it produces), there is no convergence-based
early exit, and the trace's total length is the whole iteration budget
`sum(iterations)`, i.e. the final transform is only produced after the
finest level's budget is exhausted. -/
theorem c4_fixed_iteration_schedule (α : Type) (poseFn : α → Mat4 → Mat4)
    (levels : List α) (its : List Int) (T : Mat4)
    (hlen : levels.length = its.length) :
    (∀ i, i < its.length → 0 ≤ its.getD i 0 →
      (((runLevelsTrace poseFn levels its T).2.count i : Int) = its.getD i 0))
    ∧ (runLevelsTrace poseFn levels its T).2.length = (its.map Int.toNat).sum := by
  have htr := runLevelsAux_trace poseFn its levels 0 T hlen
  constructor
  · intro i hi hnn
    have hc := schedule_count its i 0 hi
    rw [Nat.zero_add] at hc
    rw [runLevelsTrace, htr, hc, Int.toNat_of_nonneg hnn]
  · rw [runLevelsTrace, htr, schedule_length]

/-- Witness for C4: schedule `[1, 2]` over two levels yields exactly two
calls at level 1 and three calls in total. -/
theorem c4_witness :
    (([(), ()] : List Unit).length = ([1, 2] : List Int).length) ∧
      (((runLevelsTrace (fun (_ : Unit) (t : Mat4) => t) [(), ()] [1, 2]
          mat4Id).2.count 1 : Int) = 2) ∧
      (runLevelsTrace (fun (_ : Unit) (t : Mat4) => t) [(), ()] [1, 2]
          mat4Id).2.length = 3 :=
  have hlen : (([(), ()] : List Unit).length = ([1, 2] : List Int).length) := rfl
  have h := c4_fixed_iteration_schedule Unit (fun _ t => t) [(), ()] [1, 2] mat4Id hlen
  ⟨hlen, by simpa using h.1 1 (by decide) (by decide), by simpa using h.2⟩

/-- C5: each level transition divides every entry of the working
intrinsics by 2 and then resets the bottom-right (homogeneous scale) entry
to exactly 1 (lines 189–190); since level `k`'s stored matrix is a clone
taken before that level's halving, for a pinhole intrinsics matrix (whose
bottom-right entry is 1) level `k` stores the input with every
focal/principal entry divided by `2^(n-1-k)` and the bottom-right entry
equal to 1. -/
theorem c5_intrinsics_halving :
    (∀ (K : Mat3) (i j : Fin 3),
      intrinsicsStep K i j = if i = 2 ∧ j = 2 then 1 else K i j / 2)
    ∧ (∀ (ker : Kernels) (n : Nat) (sd td : Img) (K : Mat3) (l : List PtpLevel),
        K 2 2 = 1 → buildPtpPyramid ker n sd td K = .ok l →
        ∀ k, k < n → ∃ lvl, l[k]? = some lvl ∧
          ∀ i j, lvl.K i j = if i = 2 ∧ j = 2 then 1 else K i j / 2 ^ (n - 1 - k)) := by
  constructor
  · exact intrinsicsStep_apply
  · intro ker n sd td K l hK h k hk
    obtain ⟨p, hiter, hget⟩ := buildPyramid_get _ _ _ _ _ _ h k hk
    refine ⟨mkPtpLevel ker p (intrinsicsStep^[n - 1 - k] K), hget, ?_⟩
    intro i j
    show (intrinsicsStep^[n - 1 - k] K) i j = _
    exact intrinsicsStep_iterate _ K hK i j

/-- The three-level point-to-plane pyramid over an 8x8 frame with the
trivial kernels. -/
def c5Levels : List PtpLevel :=
  [mkPtpLevel trivKernels (img2, img2) (intrinsicsStep (intrinsicsStep K0)),
   mkPtpLevel trivKernels (img4, img4) (intrinsicsStep K0),
   mkPtpLevel trivKernels (img8, img8) K0]

/-- Witness for C5 on a concrete 3-level build from the standard pinhole
matrix `K0`. -/
theorem c5_witness :
    K0 2 2 = 1 ∧
      buildPtpPyramid trivKernels 3 img8 img8 K0 = .ok c5Levels ∧
      (∀ k, k < 3 → ∃ lvl, c5Levels[k]? = some lvl ∧
        ∀ i j, lvl.K i j = if i = 2 ∧ j = 2 then 1 else K0 i j / 2 ^ (3 - 1 - k)) :=
  have h1 : K0 2 2 = 1 := by decide
  have h2 : buildPtpPyramid trivKernels 3 img8 img8 K0 = .ok c5Levels := by rfl
  ⟨h1, h2, c5_intrinsics_halving.2 trivKernels 3 img8 img8 K0 c5Levels h1 h2⟩

/-- C6 (amended): the odometry entry point takes no separate pyramid-level
count — `n_levels` is defined as `iterations.size()` (line 159), so a
"mismatched-length iterations vector" cannot arise there and no
length-mismatch `ConfigurationError` is ever raised by it (first
conjunct: no run of the entry point produces that error).  The eager
mismatched-length validation in the sources is the example application's
config reader, which fails fast when the voxel-size, search-radius,
max-iteration, relative-fitness or relative-RMSE vectors disagree in
length (second conjunct). -/
theorem c6_levels_from_iterations_amended :
    (∀ (ker : Kernels) (source target : RGBDImg) (K : Mat3) (T : Mat4)
        (scale dmax diff : ℚ) (its : List Int) (method : Int) (e : OdomError),
      (rgbdOdometryMultiScale ker source target K T scale dmax diff its method).1 =
          .error e →
      e ≠ .configuration .vectorLengthMismatch)
    ∧ (∀ (voxelSizes searchRadii : List ℚ) (maxIterations : List Int)
        (relativeFitness relativeRmse : List ℚ),
        maxIterations.length ≠ voxelSizes.length →
        readConfigLengthCheck voxelSizes searchRadii maxIterations relativeFitness
            relativeRmse =
          .error (.configuration .vectorLengthMismatch)) := by
  constructor
  · intro ker source target K T scale dmax diff its method e h
    unfold rgbdOdometryMultiScale at h
    split at h
    · have he : OdomError.configuration ConfigKind.deviceMismatch = e :=
        Except.error.inj h
      subst he
      decide
    · dsimp only at h
      split at h
      · have h1 : (rgbdOdometryMultiScalePointToPlane ker
            ⟨source.color, clipImage scale dmax source.depth⟩
            ⟨target.color, clipImage scale dmax target.depth⟩ K T diff its).1 =
              .error e := h
        rcases ptp_error_kinds _ _ _ _ _ _ _ _ h1 with h2 | h2 <;> subst h2 <;> decide
      · split at h
        · have h1 : (rgbdOdometryMultiScaleIntensity ker
              ⟨source.color, clipImage scale dmax source.depth⟩
              ⟨target.color, clipImage scale dmax target.depth⟩ K T diff its).1 =
                .error e := h
          rcases intensity_error_kinds _ _ _ _ _ _ _ _ h1 with h2 | h2 <;>
            subst h2 <;> decide
        · split at h
          · have h1 : (rgbdOdometryMultiScaleHybrid ker
                ⟨source.color, clipImage scale dmax source.depth⟩
                ⟨target.color, clipImage scale dmax target.depth⟩ K T diff its).1 =
                  .error e := h
            rcases hybrid_error_kinds _ _ _ _ _ _ _ _ h1 with h2 | h2 <;>
              subst h2 <;> decide
          · have he : OdomError.configuration ConfigKind.unknownMethod = e :=
              Except.error.inj h
            subst he
            decide
  · intro voxelSizes searchRadii maxIterations relativeFitness relativeRmse hne
    unfold readConfigLengthCheck
    rw [if_pos (by tauto)]

/-- Counterexample to C6 as stated: take pyramid level count `N = 1` and an
iterations vector of length 0 — every `N ≥ 1` mismatches this vector — yet
the odometry entry point raises no `ConfigurationError` at all: it returns
the initial transform successfully, because the level count it uses is the
iterations vector's own length. -/
theorem c6_counterexample :
    (1 : Nat) ≠ ([] : List Int).length ∧
      (rgbdOdometryMultiScale trivKernels frame4 frame4 K0 mat4Id 1000 3 1 []
          methodPointToPlane).1 = .ok mat4Id :=
  ⟨by decide, by rfl⟩

/-- Witness for the amended C6 at a concrete mismatched configuration. -/
theorem c6_witness :
    ([1] : List Int).length ≠ ([] : List ℚ).length ∧
      readConfigLengthCheck [] [] [1] [] [] =
        .error (.configuration .vectorLengthMismatch) :=
  ⟨by decide, c6_levels_from_iterations_amended.2 [] [] [1] [] [] (by decide)⟩

/-- C7: depth preprocessing (modelled from the spec, since `ClipTransform`
lives in `t::geometry::Image` outside these sources) is pixelwise over the
input grid; a pixel whose scale-normalized value lies in `[0, depth_max]`
is replaced by the normalized value, any other pixel by NaN; and for
device-matched frames the entry point hands the per-method function both
frames with exactly this clipped depth, before the dispatch (lines
118–134). -/
theorem c7_clip_preprocessing :
    (∀ (scale dmax : ℚ) (img : Img) (k : Nat),
      (clipImage scale dmax img).data[k]? = (img.data[k]?).map (clipVal scale dmax))
    ∧ (∀ scale dmax v : ℚ, 0 ≤ v / scale ∧ v / scale ≤ dmax →
        clipVal scale dmax (some v) = some (v / scale))
    ∧ (∀ scale dmax v : ℚ, ¬(0 ≤ v / scale ∧ v / scale ≤ dmax) →
        clipVal scale dmax (some v) = none)
    ∧ (∀ (ker : Kernels) (source target : RGBDImg) (K : Mat3) (T : Mat4)
        (scale dmax diff : ℚ) (its : List Int),
        source.depth.device = target.depth.device →
        rgbdOdometryMultiScale ker source target K T scale dmax diff its
            methodPointToPlane =
          ((rgbdOdometryMultiScalePointToPlane ker
              ⟨source.color, clipImage scale dmax source.depth⟩
              ⟨target.color, clipImage scale dmax target.depth⟩ K T diff its).1,
            Eff.clipSource :: Eff.clipTarget ::
              (rgbdOdometryMultiScalePointToPlane ker
                ⟨source.color, clipImage scale dmax source.depth⟩
                ⟨target.color, clipImage scale dmax target.depth⟩ K T diff its).2)) := by
  refine ⟨?_, ?_, ?_, ?_⟩
  · intro scale dmax img k
    simp [clipImage]
  · intro scale dmax v hin
    simp [clipVal, hin]
  · intro scale dmax v hout
    simp [clipVal, hout]
  · intro ker source target K T scale dmax diff its hdev
    unfold rgbdOdometryMultiScale
    rw [if_neg (by simp [hdev])]
    dsimp only
    rw [if_pos rfl]

/-- Witness for C7: with scale 10 and max depth 4, raw value 3 normalizes
into range, raw value 50 falls outside and is invalidated. -/
theorem c7_witness :
    (0 ≤ (3 : ℚ) / 10 ∧ (3 : ℚ) / 10 ≤ 4) ∧ clipVal 10 4 (some 3) = some (3 / 10) ∧
      ¬(0 ≤ (50 : ℚ) / 10 ∧ (50 : ℚ) / 10 ≤ 4) ∧ clipVal 10 4 (some 50) = none :=
  ⟨by norm_num, c7_clip_preprocessing.2.1 10 4 3 (by norm_num),
   by norm_num, c7_clip_preprocessing.2.2.1 10 4 50 (by norm_num)⟩

/-- C8 (amended): `PyrDownDepth` raises a fatal error precisely when its
input has non-positive rows or columns, a channel count other than 1, or a
dtype other than Float32; on any other input it returns the
`(rows/2, cols/2, 1)` image of the same dtype and device.  A pyramid level
of zero rows/columns triggers this error only when it is downsampled
again, i.e. when it is produced before the last pyramid iteration — a
4-level pyramid over a 2x2 image fails (third conjunct); producing a
zero-size image at the last iteration raises nothing (see the
counterexample). -/
theorem c8_pyrdown_validation_amended :
    (∀ (ker : Kernels) (src : Img),
      (∃ e, pyrDownDepth ker src = .error e) ↔
        (src.rows ≤ 0 ∨ src.cols ≤ 0 ∨ src.channels ≠ 1 ∨ src.dtype ≠ Dtype.float32))
    ∧ (∀ (ker : Kernels) (src : Img),
        ¬(src.rows ≤ 0 ∨ src.cols ≤ 0 ∨ src.channels ≠ 1 ∨ src.dtype ≠ Dtype.float32) →
        pyrDownDepth ker src =
          .ok ⟨src.rows / 2, src.cols / 2, 1, src.dtype, src.device,
            ker.pyrDownData src⟩)
    ∧ buildPtpPyramid trivKernels 4 img2 img2 K0 =
        .error (.configuration .invalidShape) := by
  refine ⟨?_, ?_, by rfl⟩
  · intro ker src
    constructor
    · rintro ⟨e, he⟩
      by_contra hc
      push_neg at hc
      obtain ⟨h1, h2, h3, h4⟩ := hc
      unfold pyrDownDepth at he
      rw [if_neg (by push_neg; exact ⟨h1, h2, h3⟩), if_neg (by simpa using h4)] at he
      cases he
    · intro hbad
      unfold pyrDownDepth
      by_cases hsh : src.rows ≤ 0 ∨ src.cols ≤ 0 ∨ src.channels ≠ 1
      · rw [if_pos hsh]
        exact ⟨_, rfl⟩
      · have hdt : src.dtype ≠ Dtype.float32 := by tauto
        rw [if_neg hsh, if_pos hdt]
        exact ⟨_, rfl⟩
  · intro ker src hgood
    unfold pyrDownDepth
    rw [if_neg (by tauto), if_neg (by tauto)]

/-- Witness for the amended C8: a valid 4x4 Float32 single-channel image
downsamples without error to the 2x2 image. -/
theorem c8_witness :
    ¬(img4.rows ≤ 0 ∨ img4.cols ≤ 0 ∨ img4.channels ≠ 1 ∨
        img4.dtype ≠ Dtype.float32) ∧
      pyrDownDepth trivKernels img4 = .ok img2 :=
  ⟨by decide, by
    rw [c8_pyrdown_validation_amended.2.1 trivKernels img4 (by decide)]
    rfl⟩

/-- The three-level pyramid over a 2x2 frame: the coarsest stored level is
built from a 0x0 image. -/
def c8Levels : List PtpLevel :=
  [mkPtpLevel trivKernels (img0, img0) (intrinsicsStep (intrinsicsStep K0)),
   mkPtpLevel trivKernels (img1, img1) (intrinsicsStep K0),
   mkPtpLevel trivKernels (img2, img2) K0]

/-- Counterexample to C8 as stated: a 3-level pyramid over a 2x2 image
succeeds — no fatal error — even though its coarsest level (index 0) is
built from an image with zero rows and columns, because that image is
produced at the last pyramid iteration and never downsampled again.  This
refutes "any pyramid level reduced to zero rows/columns by excessive
downsampling triggers a fatal error". -/
theorem c8_counterexample :
    buildPtpPyramid trivKernels 3 img2 img2 K0 = .ok c8Levels ∧
      c8Levels[0]? =
        some (mkPtpLevel trivKernels (img0, img0)
          (intrinsicsStep (intrinsicsStep K0))) ∧
      img0.rows = 0 :=
  ⟨by rfl, by rfl, rfl⟩

/-- C9: any method code outside the three named ones is rejected with a
`ConfigurationError` (lines 143–145) and the effect trace contains no
pyramid construction and no pose-kernel work — the dispatch check runs as
pure validation before the expensive kernels, and no result is produced. -/
theorem c9_unknown_method_rejected (ker : Kernels) (source target : RGBDImg)
    (K : Mat3) (T : Mat4) (scale dmax diff : ℚ) (its : List Int) (method : Int)
    (h0 : method ≠ methodPointToPlane) (h1 : method ≠ methodIntensity)
    (h2 : method ≠ methodHybrid) :
    (∃ k, (rgbdOdometryMultiScale ker source target K T scale dmax diff its
        method).1 = .error (.configuration k))
    ∧ Eff.buildPyramid ∉
        (rgbdOdometryMultiScale ker source target K T scale dmax diff its method).2
    ∧ Eff.solve ∉
        (rgbdOdometryMultiScale ker source target K T scale dmax diff its method).2 := by
  unfold rgbdOdometryMultiScale
  by_cases hdev : source.depth.device ≠ target.depth.device
  · rw [if_pos hdev]
    exact ⟨⟨.deviceMismatch, rfl⟩, by simp, by simp⟩
  · rw [if_neg hdev]
    dsimp only
    rw [if_neg h0, if_neg h1, if_neg h2]
    exact ⟨⟨.unknownMethod, rfl⟩, by decide, by decide⟩

/-- Witness for C9 at the out-of-range method code 7. -/
theorem c9_witness :
    ((7 : Int) ≠ methodPointToPlane ∧ (7 : Int) ≠ methodIntensity ∧
        (7 : Int) ≠ methodHybrid) ∧
      ((∃ k, (rgbdOdometryMultiScale trivKernels frame4 frame4 K0 mat4Id 1000 3 1
          [1] 7).1 = .error (.configuration k))
        ∧ Eff.buildPyramid ∉
            (rgbdOdometryMultiScale trivKernels frame4 frame4 K0 mat4Id 1000 3 1 [1] 7).2
        ∧ Eff.solve ∉
            (rgbdOdometryMultiScale trivKernels frame4 frame4 K0 mat4Id 1000 3 1 [1] 7).2) :=
  ⟨⟨by decide, by decide, by decide⟩,
   c9_unknown_method_rejected trivKernels frame4 frame4 K0 mat4Id 1000 3 1 [1] 7
     (by decide) (by decide) (by decide)⟩

/-- C10: the caller's tensors are never mutated.  In the aliasing model
every tensor the caller holds is a handle `< s0.length`; the run clones
the intrinsics and initial transform into fresh handles after converting
them to CPU/Float64, the in-place intrinsics halving and the running
transform updates only ever write through those fresh handles, and the
returned handle is the transform clone — distinct from both caller
handles — holding a CPU Float64 tensor whatever the device and dtype of
the inputs were.  (Frame preprocessing is by construction non-mutating in
the value-level model: `clipImage` builds a new image from `const`
inputs.) -/
theorem c10_no_caller_mutation (delta : List (List ℚ) → List (List ℚ))
    (s0 : Store) (iIntr iTrans : Nat) (its : List Int)
    (hI : iIntr < s0.length) (hT : iTrans < s0.length) :
    (∀ j, j < s0.length →
      readT (heapOdometry delta s0 iIntr iTrans its).1 j = readT s0 j)
    ∧ (heapOdometry delta s0 iIntr iTrans its).2 ≠ iIntr
    ∧ (heapOdometry delta s0 iIntr iTrans its).2 ≠ iTrans
    ∧ (readT (heapOdometry delta s0 iIntr iTrans its).1
        (heapOdometry delta s0 iIntr iTrans its).2).device = Device.cpu
    ∧ (readT (heapOdometry delta s0 iIntr iTrans its).1
        (heapOdometry delta s0 iIntr iTrans its).2).dtype = Dtype.float64 := by
  have hfst : (heapOdometry delta s0 iIntr iTrans its).1 =
      heapLevels delta (s0.length + 1) its
        (heapHalvings s0.length (its.length - 1)
          ((s0 ++ [toHostF64 (readT s0 iIntr)]) ++ [toHostF64 (readT s0 iTrans)])) := by
    unfold heapOdometry alloc
    simp
  have hsnd : (heapOdometry delta s0 iIntr iTrans its).2 = s0.length + 1 := by
    unfold heapOdometry alloc
    simp
  have h0 : readT ((s0 ++ [toHostF64 (readT s0 iIntr)]) ++
      [toHostF64 (readT s0 iTrans)]) (s0.length + 1) = toHostF64 (readT s0 iTrans) := by
    have hl : (s0 ++ [toHostF64 (readT s0 iIntr)]).length = s0.length + 1 := by simp
    rw [← hl, readT_append_self]
  have hh : readT (heapHalvings s0.length (its.length - 1)
      ((s0 ++ [toHostF64 (readT s0 iIntr)]) ++ [toHostF64 (readT s0 iTrans)]))
        (s0.length + 1) = toHostF64 (readT s0 iTrans) := by
    rw [heapHalvings_readT_ne s0.length (its.length - 1) _ (s0.length + 1) (by omega)]
    exact h0
  have hlen1 : s0.length + 1 < (heapHalvings s0.length (its.length - 1)
      ((s0 ++ [toHostF64 (readT s0 iIntr)]) ++ [toHostF64 (readT s0 iTrans)])).length := by
    rw [heapHalvings_length]
    simp
  have hfin := heapLevels_hostF64 delta (s0.length + 1) its _ hlen1
    (by rw [hh]; rfl) (by rw [hh]; rfl)
  refine ⟨?_, ?_, ?_, ?_, ?_⟩
  · intro j hj
    rw [hfst]
    rw [heapLevels_readT_ne delta (s0.length + 1) its _ j (by omega)]
    rw [heapHalvings_readT_ne s0.length (its.length - 1) _ j (by omega)]
    rw [readT_append_lt _ _ _ (by simp; omega)]
    rw [readT_append_lt _ _ _ hj]
  · rw [hsnd]; omega
  · rw [hsnd]; omega
  · rw [hfst, hsnd]; exact hfin.1
  · rw [hfst, hsnd]; exact hfin.2

/-- A caller-side heap holding two CUDA Float32 tensors. -/
def c10Store : Store :=
  [⟨Device.cuda 0, Dtype.float32, [[1, 2], [3, 4]]⟩,
   ⟨Device.cuda 0, Dtype.float32, [[5]]⟩]

/-- Witness for C10: one level with one iteration over a CUDA Float32
caller heap leaves both caller tensors untouched and returns a fresh
CPU/Float64 handle. -/
theorem c10_witness :
    ((0 : Nat) < c10Store.length ∧ (1 : Nat) < c10Store.length) ∧
      (∀ j, j < c10Store.length →
        readT (heapOdometry (fun d => d) c10Store 0 1 [1]).1 j = readT c10Store j) ∧
      (heapOdometry (fun d => d) c10Store 0 1 [1]).2 ≠ 0 ∧
      (heapOdometry (fun d => d) c10Store 0 1 [1]).2 ≠ 1 ∧
      (readT (heapOdometry (fun d => d) c10Store 0 1 [1]).1
        (heapOdometry (fun d => d) c10Store 0 1 [1]).2).device = Device.cpu ∧
      (readT (heapOdometry (fun d => d) c10Store 0 1 [1]).1
        (heapOdometry (fun d => d) c10Store 0 1 [1]).2).dtype = Dtype.float64 :=
  have h := c10_no_caller_mutation (fun d => d) c10Store 0 1 [1] (by decide) (by decide)
  ⟨⟨by decide, by decide⟩, h.1, h.2.1, h.2.2.1, h.2.2.2.1, h.2.2.2.2⟩

end RGBDOdom
